import Mathlib

/-!
Shallow embedding of the console device-driver library (kern/console.c).

Machine integers are modelled as `Int` with explicit truncation where the C
code narrows: a store through a `char *` keeps the low byte as a signed char
(`Int.bmod · 256`), and a byte sent to an output port is the low byte as an
unsigned value (`Int.emod · 256`).  The display memory is a map from byte
addresses to stored values, so that out-of-range stores (which the C code can
perform) are visible in the model rather than being clipped away.  The CRTC
hardware cursor is modelled by its index/data port protocol: an index
register plus a register file, written through `outb`.
-/

namespace Console

/-- Width of the console grid in characters (CONSOLE_WIDTH, 80 in p1kern.h;
the header is not part of the sources, the value is the spec's 80x25 grid). -/
def CONSOLE_WIDTH : Int := 80

/-- Height of the console grid in characters (CONSOLE_HEIGHT, 25 in p1kern.h;
the header is not part of the sources, the value is the spec's 80x25 grid). -/
def CONSOLE_HEIGHT : Int := 25

/-- Base address of the memory-mapped display buffer (CONSOLE_MEM_BASE from
p1kern.h; the standard VGA text base.  Only relative cell addressing matters
to any property proved below). -/
def CONSOLE_MEM_BASE : Int := 0xB8000

/-- CRTC index port (CRTC_IDX_REG from p1kern.h). -/
def CRTC_IDX_REG : Int := 0x3D4

/-- CRTC data port (CRTC_DATA_REG from p1kern.h). -/
def CRTC_DATA_REG : Int := 0x3D5

/-- CRTC register index of the cursor-position high byte. -/
def CRTC_CURSOR_MSB_IDX : Int := 14

/-- CRTC register index of the cursor-position low byte. -/
def CRTC_CURSOR_LSB_IDX : Int := 15

/-- `#define CONSOLE_OUT_OF_RANGE 2500` in console.c: the sentinel linear
position written to the hardware cursor to hide it. -/
def CONSOLE_OUT_OF_RANGE : Int := 2500

/-- The driver's mutable state: the file-scope globals of console.c
(`cursor_row`, `cursor_col`, `current_color`, `is_cursor_visible`), the
memory-mapped display buffer (a map from byte address to stored byte), and
the CRTC cursor hardware reached through the index/data port pair (the last
index written, and the register file). -/
structure ConsoleState where
  cursor_row : Int
  cursor_col : Int
  current_color : Int
  is_cursor_visible : Int
  mem : Int → Int
  hwIdx : Int
  hwRegs : Int → Int

/-- State at driver start: C file-scope globals are zero-initialized
(`cursor_row = 0`, `cursor_col = 0`, `current_color = 0`,
`is_cursor_visible = 0`); display memory and CRTC registers are taken as
all-zero for concreteness. -/
def initState : ConsoleState :=
  { cursor_row := 0, cursor_col := 0, current_color := 0,
    is_cursor_visible := 0, mem := fun _ => 0, hwIdx := 0,
    hwRegs := fun _ => 0 }

/-- `outb(port, value)`: a byte write on the I/O bus.  The only device
modelled is the CRTC behind the index/data port pair: a write to the index
port latches the (low byte of the) register index, a write to the data port
stores the low byte into the latched register. -/
def outb (port v : Int) (st : ConsoleState) : ConsoleState :=
  if port = CRTC_IDX_REG then
    { st with hwIdx := Int.emod v 256 }
  else if port = CRTC_DATA_REG then
    { st with hwRegs := fun i => if i = st.hwIdx then Int.emod v 256 else st.hwRegs i }
  else
    st

/-- `putbyte(ch)` from console.c, verbatim: a switch on `ch` with cases for
newline, carriage return and backspace, a default case that stores the
character and the current color at the cursor cell and advances the column,
wrapping only when the column exceeds (not reaches) CONSOLE_WIDTH.  Returns
`ch` paired with the new state. -/
def putbyte (ch : Int) (st : ConsoleState) : Int × ConsoleState :=
  if ch = 10 then
    (ch, { st with cursor_col := 0, cursor_row := st.cursor_row + 1 })
  else if ch = 13 then
    (ch, { st with cursor_col := 0 })
  else if ch = 8 then
    let col0 := st.cursor_col - 1
    let row1 := if col0 < 0 then st.cursor_row - 1 else st.cursor_row
    let col1 := if col0 < 0 then CONSOLE_WIDTH - 1 else col0
    let addr := CONSOLE_MEM_BASE + 2 * (CONSOLE_WIDTH * row1 + col1)
    let mem1 := fun x =>
      if x = addr + 1 then Int.bmod st.current_color 256
      else if x = addr then 32 else st.mem x
    (ch, { st with cursor_row := row1, cursor_col := col1, mem := mem1 })
  else
    let addr := CONSOLE_MEM_BASE + 2 * (CONSOLE_WIDTH * st.cursor_row + st.cursor_col)
    let mem1 := fun x =>
      if x = addr + 1 then Int.bmod st.current_color 256
      else if x = addr then Int.bmod ch 256 else st.mem x
    let col0 := st.cursor_col + 1
    if CONSOLE_WIDTH < col0 then
      (ch, { st with mem := mem1, cursor_col := 0, cursor_row := st.cursor_row + 1 })
    else
      (ch, { st with mem := mem1, cursor_col := col0 })

/-- The loop of `putbytes`: `while (len >= 0) { putbyte(*s); s++; len--; }`.
The string pointer is modelled as a byte stream `s` with an offset `i` (C
lets the loop read past the caller-intended length, so the stream must be
total); the second component counts how many times `putbyte` was invoked. -/
def putbytesLoop (s : Nat → Int) (i : Nat) (len : Int) (st : ConsoleState)
    (calls : Nat) : ConsoleState × Nat :=
  if 0 ≤ len then
    putbytesLoop s (i + 1) (len - 1) (putbyte (s i) st).2 (calls + 1)
  else
    (st, calls)
termination_by (len + 1).toNat
decreasing_by omega

/-- `putbytes(s, len)` from console.c: returns unchanged if `s == NULL`
(modelled as `none`), otherwise runs the loop.  The result pairs the final
state with the number of `putbyte` invocations performed. -/
def putbytes (s : Option (Nat → Int)) (len : Int) (st : ConsoleState) :
    ConsoleState × Nat :=
  match s with
  | none => (st, 0)
  | some f => putbytesLoop f 0 len st 0

/-- `set_term_color(color)` from console.c: masks out `color & 0x0F` and
`color & 0xF0` (the latter without shifting), range-checks them, and on
success stores `color` into the `char` global `current_color`. -/
def set_term_color (color : Int) (st : ConsoleState) : Int × ConsoleState :=
  let foreground := Int.land color 0x0F
  let background := Int.land color 0xF0
  if foreground < 0 ∨ 15 < foreground ∨ background < 0 ∨ 7 < background then
    (-1, st)
  else
    (0, { st with current_color := Int.bmod color 256 })

/-- `get_term_color(&color)` from console.c: reports the stored color (the
C function writes `current_color`, sign-extended from char, through the
pointer; the model returns it). -/
def get_term_color (st : ConsoleState) : Int :=
  st.current_color

/-- `set_cursor(row, col)` from console.c: rejects coordinates outside
rows 0..24 / columns 0..79 with -1, otherwise stores them and returns 0.
No hardware access occurs in either branch. -/
def set_cursor (row col : Int) (st : ConsoleState) : Int × ConsoleState :=
  if row < 0 ∨ 24 < row ∨ col < 0 ∨ 79 < col then
    (-1, st)
  else
    (0, { st with cursor_row := row, cursor_col := col })

/-- `get_cursor(&row, &col)` from console.c: reports the stored cursor
position. -/
def get_cursor (st : ConsoleState) : Int × Int :=
  (st.cursor_row, st.cursor_col)

/-- `hide_cursor()` from console.c: writes the out-of-range sentinel to the
CRTC cursor registers (high byte then low byte, index-then-data) and clears
the visibility flag.  `cursor_pos >> 8` is the arithmetic shift, `Int.fdiv`
by 256. -/
def hide_cursor (st : ConsoleState) : ConsoleState :=
  let cursor_pos : Int := CONSOLE_OUT_OF_RANGE
  let st1 := outb CRTC_IDX_REG CRTC_CURSOR_MSB_IDX st
  let st2 := outb CRTC_DATA_REG (Int.fdiv cursor_pos 256) st1
  let st3 := outb CRTC_IDX_REG CRTC_CURSOR_LSB_IDX st2
  let st4 := outb CRTC_DATA_REG cursor_pos st3
  { st4 with is_cursor_visible := 0 }

/-- `show_cursor()` from console.c: writes the logical cursor's linear
position to the CRTC cursor registers (high byte then low byte,
index-then-data) and sets the visibility flag. -/
def show_cursor (st : ConsoleState) : ConsoleState :=
  let cursor_pos : Int := st.cursor_row * CONSOLE_WIDTH + st.cursor_col
  let st1 := outb CRTC_IDX_REG CRTC_CURSOR_MSB_IDX st
  let st2 := outb CRTC_DATA_REG (Int.fdiv cursor_pos 256) st1
  let st3 := outb CRTC_IDX_REG CRTC_CURSOR_LSB_IDX st2
  let st4 := outb CRTC_DATA_REG cursor_pos st3
  { st4 with is_cursor_visible := 1 }

/-- `draw_char(row, col, ch, color)` from console.c: stores the character
byte and the color byte of the addressed cell, with no bounds check of any
kind. -/
def draw_char (row col ch color : Int) (st : ConsoleState) : ConsoleState :=
  let addr := CONSOLE_MEM_BASE + 2 * (CONSOLE_WIDTH * row + col)
  { st with mem := fun x =>
      if x = addr + 1 then Int.bmod color 256
      else if x = addr then Int.bmod ch 256 else st.mem x }

/-- `get_char(row, col)` from console.c: reads the character byte of the
addressed cell, with no bounds check of any kind. -/
def get_char (row col : Int) (st : ConsoleState) : Int :=
  st.mem (CONSOLE_MEM_BASE + 2 * (CONSOLE_WIDTH * row + col))

/-- Sequential `putbyte` of a list of bytes, front first: the effect of a
caller issuing one `putbyte` per byte. -/
def putSeq : List Int → ConsoleState → ConsoleState
  | [], st => st
  | c :: cs, st => putSeq cs (putbyte c st).2

end Console

/-! ## Helper lemmas -/

namespace Console

/-- `Int.emod` is the `%` of `Int`: lets `omega` see through the explicit
`Int.emod` spelling used in the port-write model. -/
theorem int_emod_eq_mod (a b : Int) : Int.emod a b = a % b := rfl

/-- The `putbytes` loop body runs once per value of `len` from its starting
value down to 0 inclusive: `n + 1` iterations when started at `n ≥ 0`. -/
theorem putbytesLoop_count (f : Nat → Int) :
    ∀ (n i : Nat) (st : ConsoleState) (calls : Nat),
      (putbytesLoop f i (n : Int) st calls).2 = calls + n + 1 := by
  intro n
  induction n with
  | zero =>
    intro i st calls
    rw [putbytesLoop]
    norm_num
    rw [putbytesLoop]
    norm_num
  | succ n ih =>
    intro i st calls
    rw [putbytesLoop]
    rw [if_pos (by positivity)]
    have hcast : ((n + 1 : Nat) : Int) - 1 = (n : Int) := by push_cast; ring
    rw [hcast, ih]
    omega

/-! ## Claim theorems -/

/-- C1: the claim says `putbytes(s, n)` is a no-op for `n ≤ 0` and otherwise
invokes `putbyte` exactly `n` times.  The code's loop runs while `len >= 0`,
so for every `len ≥ 0` (including `len = 0`, where the claim and the code's
own doc comment demand zero operations) it invokes `putbyte` exactly
`len + 1` times — one more than the claim allows, reading one byte past the
caller-intended length. -/
theorem putbytes_loop_count_off_by_one (f : Nat → Int) (len : Int)
    (st : ConsoleState) (h : 0 ≤ len) :
    (putbytes (some f) len st).2 = len.toNat + 1 := by
  have hcast := putbytesLoop_count f len.toNat 0 st 0
  rw [Int.toNat_of_nonneg h] at hcast
  simpa using hcast

/-- Witness for C1: with a non-null sequence and length 0 the code performs
one `putbyte` call, not zero. -/
theorem putbytes_loop_count_off_by_one_witness :
    0 ≤ (0 : Int) ∧ (putbytes (some fun _ => 97) 0 initState).2 = (0 : Int).toNat + 1 :=
  ⟨by decide, putbytes_loop_count_off_by_one (fun _ => 97) 0 initState (by decide)⟩

set_option maxRecDepth 100000 in
/-- C2: the claim says writing `gridWidth` (80) ordinary characters from
column 0 wraps the cursor to (row+1, 0), the wrap triggering exactly when
the column reaches `gridWidth`.  The code tests `cursor_col > CONSOLE_WIDTH`
after the increment, so after 80 ordinary characters from (0,0) the cursor
is at (0, 80) — column `gridWidth`, wrap not yet taken — although all 80
cells of row 0 are populated and the first cell of row 1 is untouched. -/
theorem putbyte_wrap_threshold_off_by_one :
    (putSeq (List.replicate 80 97) initState).cursor_row = 0 ∧
    (putSeq (List.replicate 80 97) initState).cursor_col = 80 ∧
    (∀ i : Fin 80, (putSeq (List.replicate 80 97) initState).mem
      (CONSOLE_MEM_BASE + 2 * (i.val : Int)) = 97) ∧
    (putSeq (List.replicate 80 97) initState).mem (CONSOLE_MEM_BASE + 2 * 80) =
      initState.mem (CONSOLE_MEM_BASE + 2 * 80) := by
  refine ⟨by decide, by decide, ?_, by decide⟩
  decide

/-- C3: the claim says any transition that moves the cursor row to
`gridHeight` or beyond scrolls the grid and pins the row to
`gridHeight - 1`.  The code has no scroll logic at all: a newline at
row 24 leaves the cursor at row 25 and display memory entirely
untouched (no shift, no cleared bottom row). -/
theorem putbyte_newline_last_row_no_scroll :
    ((putbyte 10 { initState with cursor_row := 24 }).2).cursor_row = 25 ∧
    ((putbyte 10 { initState with cursor_row := 24 }).2).mem =
      ({ initState with cursor_row := 24 } : ConsoleState).mem :=
  ⟨by decide, rfl⟩

/-- C4: the claim says `set_term_color` accepts every foreground in [0,15]
with background in [0,7].  The code masks `color & 0xF0` but compares that
unshifted value against 7, so every color with a nonzero background nibble
is rejected: color 0x10 (foreground 0, background 1) returns -1 with the
stored color unchanged, and color 0x17 (foreground 7, background 1)
likewise; only background 0 ever passes. -/
theorem set_term_color_background_mask_unshifted :
    (set_term_color 16 initState).1 = -1 ∧
    (set_term_color 16 initState).2.current_color = initState.current_color ∧
    (set_term_color 23 initState).1 = -1 ∧
    (set_term_color 15 initState).1 = 0 ∧
    get_term_color (set_term_color 15 initState).2 = 15 := by
  refine ⟨by decide, rfl, by decide, by decide, by decide⟩

/-- C5: the claim says `draw_char` and `get_char` validate bounds before any
buffer access and reject out-of-range coordinates.  The code performs no
bounds check whatsoever: `draw_char` at row 25 (one past the last row)
writes the character byte to the out-of-range cell address, and `get_char`
at the same coordinates reads that address. -/
theorem draw_char_get_char_unchecked :
    (draw_char 25 0 120 7 initState).mem
      (CONSOLE_MEM_BASE + 2 * (CONSOLE_WIDTH * 25 + 0)) = 120 ∧
    get_char 25 0 initState = initState.mem
      (CONSOLE_MEM_BASE + 2 * (CONSOLE_WIDTH * 25 + 0)) :=
  ⟨by decide, rfl⟩

/-- C6 counterexample: with the cursor visible and the CRTC registers at 0,
a successful `set_cursor 3 5` leaves the hardware cursor registers holding
0, not the new linear position 3 * 80 + 5: the code never pushes the
position to the hardware register. -/
theorem set_cursor_visible_no_hw_push :
    ({ initState with is_cursor_visible := 1 } : ConsoleState).is_cursor_visible = 1 ∧
    (set_cursor 3 5 { initState with is_cursor_visible := 1 }).1 = 0 ∧
    ¬ ((set_cursor 3 5 { initState with is_cursor_visible := 1 }).2.hwRegs
          CRTC_CURSOR_MSB_IDX * 256 +
        (set_cursor 3 5 { initState with is_cursor_visible := 1 }).2.hwRegs
          CRTC_CURSOR_LSB_IDX =
        3 * CONSOLE_WIDTH + 5) := by
  refine ⟨rfl, by decide, by decide⟩

/-- C6 amended: `set_cursor` only updates the stored logical position; it
never writes the CRTC index or data port in either branch, and it never
changes the visibility flag — so a hidden cursor is never made to show,
and a visible cursor's hardware position is not updated either. -/
theorem set_cursor_never_writes_hw (row col : Int) (st : ConsoleState) :
    (set_cursor row col st).2.hwIdx = st.hwIdx ∧
    (set_cursor row col st).2.hwRegs = st.hwRegs ∧
    (set_cursor row col st).2.is_cursor_visible = st.is_cursor_visible := by
  unfold set_cursor
  split
  · exact ⟨rfl, rfl, rfl⟩
  · exact ⟨rfl, rfl, rfl⟩

/-- C7 counterexample: a backspace with the cursor at the origin (0,0) sets
the cursor row to -1 — the code has no clamp, so the row does go negative,
against the claim's "clamps at origin when r = 0, never producing a
negative row". -/
theorem putbyte_backspace_origin_underflow :
    ((putbyte 8 initState).2).cursor_row = -1 ∧
    ((putbyte 8 initState).2).cursor_col = 79 := by
  exact ⟨by decide, by decide⟩

/-- C7 amended: for a cursor at column 0 of any row `r ≥ 1`, backspace moves
the cursor to (r - 1, gridWidth - 1) and overwrites that vacated cell with
a space carrying the current default attribute; at r = 0 the row instead
becomes -1 (see the counterexample), unclamped. -/
theorem putbyte_backspace_column_zero (st : ConsoleState)
    (hc : st.cursor_col = 0) (hr : 1 ≤ st.cursor_row) :
    ((putbyte 8 st).2).cursor_row = st.cursor_row - 1 ∧
    ((putbyte 8 st).2).cursor_col = CONSOLE_WIDTH - 1 ∧
    ((putbyte 8 st).2).mem (CONSOLE_MEM_BASE +
      2 * (CONSOLE_WIDTH * (st.cursor_row - 1) + (CONSOLE_WIDTH - 1))) = 32 ∧
    ((putbyte 8 st).2).mem (CONSOLE_MEM_BASE +
      2 * (CONSOLE_WIDTH * (st.cursor_row - 1) + (CONSOLE_WIDTH - 1)) + 1) =
      Int.bmod st.current_color 256 := by
  simp only [putbyte, hc]
  norm_num

/-- Witness for the amended C7: backspace at (5, 0) lands on (4, 79) and
blanks that cell. -/
theorem putbyte_backspace_column_zero_witness :
    ({ initState with cursor_row := 5 } : ConsoleState).cursor_col = 0 ∧
    1 ≤ ({ initState with cursor_row := 5 } : ConsoleState).cursor_row ∧
    (((putbyte 8 { initState with cursor_row := 5 }).2).cursor_row =
        ({ initState with cursor_row := 5 } : ConsoleState).cursor_row - 1 ∧
      ((putbyte 8 { initState with cursor_row := 5 }).2).cursor_col = CONSOLE_WIDTH - 1 ∧
      ((putbyte 8 { initState with cursor_row := 5 }).2).mem (CONSOLE_MEM_BASE +
        2 * (CONSOLE_WIDTH * (({ initState with cursor_row := 5 } : ConsoleState).cursor_row - 1) +
          (CONSOLE_WIDTH - 1))) = 32 ∧
      ((putbyte 8 { initState with cursor_row := 5 }).2).mem (CONSOLE_MEM_BASE +
        2 * (CONSOLE_WIDTH * (({ initState with cursor_row := 5 } : ConsoleState).cursor_row - 1) +
          (CONSOLE_WIDTH - 1)) + 1) =
        Int.bmod ({ initState with cursor_row := 5 } : ConsoleState).current_color 256) :=
  ⟨rfl, by decide, putbyte_backspace_column_zero { initState with cursor_row := 5 } rfl (by decide)⟩

/-- C8: for coordinates inside the grid (rows 0..24, columns 0..79)
`set_cursor` returns 0 and a subsequent `get_cursor` reads back exactly the
pair that was set; for coordinates outside the grid it returns -1 and
`get_cursor` still reads the previously stored position. -/
theorem set_cursor_get_cursor_roundtrip (row col : Int) (st : ConsoleState) :
    (0 ≤ row ∧ row ≤ 24 ∧ 0 ≤ col ∧ col ≤ 79 →
      (set_cursor row col st).1 = 0 ∧
      get_cursor (set_cursor row col st).2 = (row, col)) ∧
    (¬ (0 ≤ row ∧ row ≤ 24 ∧ 0 ≤ col ∧ col ≤ 79) →
      (set_cursor row col st).1 = -1 ∧
      get_cursor (set_cursor row col st).2 = get_cursor st) := by
  unfold set_cursor get_cursor
  split
  next h =>
    refine ⟨fun h2 => absurd h (by omega), fun _ => ⟨rfl, rfl⟩⟩
  next h =>
    refine ⟨fun _ => ⟨rfl, rfl⟩, fun h2 => absurd h2 (by omega)⟩

/-- Witness for C8: (3, 7) is accepted and read back; (25, 3) is rejected
leaving the initial (0, 0). -/
theorem set_cursor_get_cursor_roundtrip_witness :
    ((set_cursor 3 7 initState).1 = 0 ∧
      get_cursor (set_cursor 3 7 initState).2 = (3, 7)) ∧
    ((set_cursor 25 3 initState).1 = -1 ∧
      get_cursor (set_cursor 25 3 initState).2 = get_cursor initState) :=
  ⟨(set_cursor_get_cursor_roundtrip 3 7 initState).1 (by decide),
    (set_cursor_get_cursor_roundtrip 25 3 initState).2 (by decide)⟩

/-- C9: `hide_cursor` writes the out-of-range sentinel to the CRTC cursor
registers without touching the logical position; a following `show_cursor`
writes the logical cursor's linear position back, high byte then low byte,
so for any in-bounds cursor the register pair again encodes
row * gridWidth + col. -/
theorem hide_show_restores_hw_position (st : ConsoleState)
    (hr0 : 0 ≤ st.cursor_row) (hr : st.cursor_row < CONSOLE_HEIGHT)
    (hc0 : 0 ≤ st.cursor_col) (hc : st.cursor_col < CONSOLE_WIDTH) :
    (show_cursor (hide_cursor st)).hwRegs CRTC_CURSOR_MSB_IDX * 256 +
      (show_cursor (hide_cursor st)).hwRegs CRTC_CURSOR_LSB_IDX =
      st.cursor_row * CONSOLE_WIDTH + st.cursor_col ∧
    (hide_cursor st).cursor_row = st.cursor_row ∧
    (hide_cursor st).cursor_col = st.cursor_col := by
  refine ⟨?_, rfl, rfl⟩
  simp only [show_cursor, hide_cursor, outb, CRTC_IDX_REG, CRTC_DATA_REG,
    CRTC_CURSOR_MSB_IDX, CRTC_CURSOR_LSB_IDX, CONSOLE_HEIGHT, CONSOLE_WIDTH] at *
  norm_num
  rw [Int.fdiv_eq_ediv _ (by norm_num)]
  simp only [int_emod_eq_mod]
  omega

/-- Witness for C9: from cursor (3, 5), hide then show leaves the register
pair encoding 3 * 80 + 5. -/
theorem hide_show_restores_hw_position_witness :
    0 ≤ ({ initState with cursor_row := 3, cursor_col := 5 } : ConsoleState).cursor_row ∧
    ((show_cursor (hide_cursor { initState with cursor_row := 3, cursor_col := 5 })).hwRegs
          CRTC_CURSOR_MSB_IDX * 256 +
        (show_cursor (hide_cursor { initState with cursor_row := 3, cursor_col := 5 })).hwRegs
          CRTC_CURSOR_LSB_IDX =
        ({ initState with cursor_row := 3, cursor_col := 5 } : ConsoleState).cursor_row *
            CONSOLE_WIDTH +
          ({ initState with cursor_row := 3, cursor_col := 5 } : ConsoleState).cursor_col ∧
      (hide_cursor { initState with cursor_row := 3, cursor_col := 5 }).cursor_row =
        ({ initState with cursor_row := 3, cursor_col := 5 } : ConsoleState).cursor_row) :=
  ⟨by decide,
    (hide_show_restores_hw_position { initState with cursor_row := 3, cursor_col := 5 }
        (by decide) (by decide) (by decide) (by decide)).1,
    (hide_show_restores_hw_position { initState with cursor_row := 3, cursor_col := 5 }
        (by decide) (by decide) (by decide) (by decide)).2.1⟩

/-- C10: `putbyte` never changes the stored default color, the visibility
flag, or the CRTC hardware state, on any input byte and any driver state:
every branch of the switch only rewrites the cursor position and display
cells. -/
theorem putbyte_preserves_color_visibility_hw (ch : Int) (st : ConsoleState) :
    ((putbyte ch st).2).current_color = st.current_color ∧
    ((putbyte ch st).2).is_cursor_visible = st.is_cursor_visible ∧
    ((putbyte ch st).2).hwIdx = st.hwIdx ∧
    ((putbyte ch st).2).hwRegs = st.hwRegs := by
  unfold putbyte
  dsimp only
  repeat' split
  all_goals exact ⟨rfl, rfl, rfl, rfl⟩

end Console
